import Mathlib

/-!
Shallow embedding of `VelocityController` from
`src/common/include/roboost/motor_control/motor_controllers/velocity_motor_controller.hpp`.

The C++ class is a template over the collaborator types (motor driver, encoder,
PID controller, input filter, output filter, rate-limiting filter); the embedding
mirrors that by parameterising over the collaborator state types and passing a
record of each collaborator's operations (the template's static interface).
C++ `float`/`double` values are embedded as `ℚ` (exact real-valued arithmetic);
`int32_t`/`int64_t` values are embedded as `ℤ` (the concrete inputs used below
stay far inside the 32-bit range, so no wraparound is modelled).  The C++
`static_cast<int32_t>(float)` and the implicit `float → int64_t` conversion both
truncate toward zero, embedded as `truncToInt`.  `PWM_RESOLUTION` is a
deployment constant defined outside this repository's sources; per the spec it
is a positive integer, so it appears as a parameter `PWM_RESOLUTION : ℤ`
(theorems that need it assume `1 ≤ PWM_RESOLUTION`).
-/

namespace roboost.motor_control

/-- Interface of the encoder template parameter: `update()` refreshes internal
state, `get_velocity_radians_per_second()` reads the sampled velocity. -/
structure Encoder (ε : Type) where
  update : ε → ε
  get_velocity_radians_per_second : ε → ℚ

/-- Interface of a unary stateful filter (`Filter::update(x)`), used for the
input filter and the output filter. -/
structure Filter (σ : Type) where
  update : σ → ℚ → σ × ℚ

/-- Interface of the rate-limiting filter:
`update(desired, measurement) → bounded setpoint`. -/
structure RateLimitingFilter (σ : Type) where
  update : σ → ℚ → ℚ → σ × ℚ

/-- Interface of the PID controller: `update(setpoint, measurement) → output`. -/
structure PIDController (σ : Type) where
  update : σ → ℚ → ℚ → σ × ℚ

/-- Interface of the motor driver: `set_motor_control(cmd)` receives the signed
integer PWM command. -/
structure MotorDriver (σ : Type) where
  set_motor_control : σ → ℤ → σ

/-- The controller's own fields (hpp lines 98–100): the two `int32_t`
configuration values and the `int64_t` mutable field `current_setpoint_`. -/
structure VelocityController where
  deadband_threshold : ℤ
  minimum_output : ℤ
  current_setpoint : ℤ
deriving DecidableEq

/-- The constructor (hpp lines 48–54): stores `deadband_threshold` and
`minimum_output` unchanged and initialises `current_setpoint_(0)`.  The body is
empty; no validation of any kind is performed. -/
def VelocityController.construct (deadband_threshold minimum_output : ℤ) :
    VelocityController :=
  { deadband_threshold := deadband_threshold
    minimum_output := minimum_output
    current_setpoint := 0 }

/-- `int64_t get_setpoint() const { return current_setpoint_; }` (hpp line 90). -/
def VelocityController.get_setpoint (c : VelocityController) : ℤ :=
  c.current_setpoint

/-- C++ float-to-integer conversion: truncation toward zero. -/
def truncToInt (q : ℚ) : ℤ :=
  if 0 ≤ q then ⌊q⌋ else ⌈q⌉

/-- Hpp lines 72–80: the deadband / minimum-output conditioning applied to the
output-filtered PID output `output`.  `deadband_threshold_` and
`minimum_output_` are `int32_t` values compared directly (after implicit
conversion to float) against `abs(output)`. -/
def conditionOutput (deadband_threshold minimum_output : ℤ) (output : ℚ) : ℚ :=
  if |output| < (deadband_threshold : ℚ) then 0
  else if |output| < (minimum_output : ℚ) then
    (minimum_output : ℚ) * (output / |output|)
  else output

/-- Hpp lines 72–83: conditioning followed by
`static_cast<int32_t>(output * PWM_RESOLUTION)`. -/
def motorControlValue (deadband_threshold minimum_output PWM_RESOLUTION : ℤ)
    (output : ℚ) : ℤ :=
  truncToInt (conditionOutput deadband_threshold minimum_output output *
    (PWM_RESOLUTION : ℚ))

/-- Whether the else-if branch of hpp line 77 is taken, i.e. whether the
expression `minimum_output_ * (output / abs(output))` on line 79 — whose
divisor is `abs(output)` — is evaluated. -/
def minimumFloorBranchTaken (deadband_threshold minimum_output : ℤ)
    (output : ℚ) : Bool :=
  if |output| < (deadband_threshold : ℚ) then false
  else if |output| < (minimum_output : ℚ) then true
  else false

/-- All intermediate values and collaborator states produced by one execution
of the body of `set_target` (hpp lines 61–86), one field per source local. -/
structure StepData (ε ι ω ρ π : Type) where
  encoder : ε
  input_filter : ι
  output_filter : ω
  rate_limiting_filter : ρ
  pid : π
  input : ℚ
  rate_limited_setpoint : ℚ
  current_setpoint : ℤ
  pid_output : ℚ
  u : ℚ
  motor_control_value : ℤ

/-- The body of `set_target` (hpp lines 61–86) as a pure state transformer:

```cpp
encoder_.update();
float input = encoder_.get_velocity_radians_per_second();
input = input_filter_.update(input);
current_setpoint_ = rate_limiting_filter_.update(desired_rotation_speed, input);
float output = pid_.update(current_setpoint_, input);
output = output_filter_.update(output);
if (abs(output) < deadband_threshold_) \x7b output = 0; \x7d
else if (abs(output) < minimum_output_) \x7b output = minimum_output_ * (output / abs(output)); \x7d
int32_t motor_control_value = static_cast<int32_t>(output * PWM_RESOLUTION);
```

Note `current_setpoint_` is `int64_t`, so the rate limiter's float result is
truncated on assignment, and the PID receives the truncated value converted
back to float. -/
def run_step {ε ι ω ρ π : Type} (enc : Encoder ε) (ifil : Filter ι)
    (ofil : Filter ω) (rlim : RateLimitingFilter ρ) (pidc : PIDController π)
    (PWM_RESOLUTION : ℤ) (c : VelocityController)
    (e : ε) (fi : ι) (fo : ω) (r : ρ) (p : π)
    (desired_rotation_speed : ℚ) : StepData ε ι ω ρ π :=
  let e1 := enc.update e
  let input0 := enc.get_velocity_radians_per_second e1
  let fi1 := ifil.update fi input0
  let rl := rlim.update r desired_rotation_speed fi1.2
  let current_setpoint := truncToInt rl.2
  let pd := pidc.update p (current_setpoint : ℚ) fi1.2
  let fo1 := ofil.update fo pd.2
  { encoder := e1
    input_filter := fi1.1
    output_filter := fo1.1
    rate_limiting_filter := rl.1
    pid := pd.1
    input := fi1.2
    rate_limited_setpoint := rl.2
    current_setpoint := current_setpoint
    pid_output := pd.2
    u := fo1.2
    motor_control_value :=
      motorControlValue c.deadband_threshold c.minimum_output PWM_RESOLUTION fo1.2 }

/-- The collaborator states plus the controller: everything `set_target`
reads and writes through the stored references. -/
structure SystemState (ε ι ω ρ π δ : Type) where
  encoder : ε
  input_filter : ι
  output_filter : ω
  rate_limiting_filter : ρ
  pid : π
  motor_driver : δ
  controller : VelocityController

/-- `void set_target(float desired_rotation_speed)` (hpp lines 61–86): runs the
step and performs the two writes — `current_setpoint_ = ...` and
`motor_driver_.set_motor_control(motor_control_value)`. -/
def set_target {ε ι ω ρ π δ : Type} (enc : Encoder ε) (ifil : Filter ι)
    (ofil : Filter ω) (rlim : RateLimitingFilter ρ) (pidc : PIDController π)
    (drv : MotorDriver δ) (PWM_RESOLUTION : ℤ)
    (s : SystemState ε ι ω ρ π δ) (desired_rotation_speed : ℚ) :
    SystemState ε ι ω ρ π δ :=
  let d := run_step enc ifil ofil rlim pidc PWM_RESOLUTION s.controller
    s.encoder s.input_filter s.output_filter s.rate_limiting_filter s.pid
    desired_rotation_speed
  { encoder := d.encoder
    input_filter := d.input_filter
    output_filter := d.output_filter
    rate_limiting_filter := d.rate_limiting_filter
    pid := d.pid
    motor_driver := drv.set_motor_control s.motor_driver d.motor_control_value
    controller := { s.controller with current_setpoint := d.current_setpoint } }

/-- The observable operations performed by the body of `set_target`, one
constructor per source statement of hpp lines 63–85. -/
inductive StepEvent where
  | encoder_update
  | encoder_get_velocity
  | input_filter_update
  | rate_limiting_filter_update
  | pid_update
  | output_filter_update
  | deadband_check
  | minimum_output_floor
  | scale_to_pwm
  | set_motor_control
deriving DecidableEq

/-- The sequence of operations the body of `set_target` performs, in source
order (hpp lines 63–85).  The `minimum_output_floor` assignment (line 79) is
executed only when the deadband test fails and the second comparison holds. -/
def set_target_events {ε ι ω ρ π : Type} (enc : Encoder ε) (ifil : Filter ι)
    (ofil : Filter ω) (rlim : RateLimitingFilter ρ) (pidc : PIDController π)
    (c : VelocityController) (e : ε) (fi : ι) (fo : ω) (r : ρ) (p : π)
    (desired_rotation_speed : ℚ) : List StepEvent :=
  let e1 := enc.update e
  let input0 := enc.get_velocity_radians_per_second e1
  let fi1 := ifil.update fi input0
  let rl := rlim.update r desired_rotation_speed fi1.2
  let current_setpoint := truncToInt rl.2
  let pd := pidc.update p (current_setpoint : ℚ) fi1.2
  let fo1 := ofil.update fo pd.2
  [StepEvent.encoder_update, StepEvent.encoder_get_velocity,
   StepEvent.input_filter_update, StepEvent.rate_limiting_filter_update,
   StepEvent.pid_update, StepEvent.output_filter_update] ++
  (if |fo1.2| < (c.deadband_threshold : ℚ) then [StepEvent.deadband_check]
   else if |fo1.2| < (c.minimum_output : ℚ) then
     [StepEvent.deadband_check, StepEvent.minimum_output_floor]
   else [StepEvent.deadband_check]) ++
  [StepEvent.scale_to_pwm, StepEvent.set_motor_control]

/-- The spec's step order (§4.1): sample, input filter, rate limit, PID,
output filter, deadband, minimum floor, scale, driver write. -/
def canonical_step_order : List StepEvent :=
  [StepEvent.encoder_update, StepEvent.encoder_get_velocity,
   StepEvent.input_filter_update, StepEvent.rate_limiting_filter_update,
   StepEvent.pid_update, StepEvent.output_filter_update,
   StepEvent.deadband_check, StepEvent.minimum_output_floor,
   StepEvent.scale_to_pwm, StepEvent.set_motor_control]

/-- The operations every `set_target` invocation performs (all of the step
except the conditional minimum-output floor). -/
def mandatory_step_events : List StepEvent :=
  [StepEvent.encoder_update, StepEvent.encoder_get_velocity,
   StepEvent.input_filter_update, StepEvent.rate_limiting_filter_update,
   StepEvent.pid_update, StepEvent.output_filter_update,
   StepEvent.deadband_check, StepEvent.scale_to_pwm,
   StepEvent.set_motor_control]

/-- Concrete encoder whose sampled velocity is the constant `v`. -/
def constEncoder (v : ℚ) : Encoder Unit :=
  { update := fun s => s, get_velocity_radians_per_second := fun _ => v }

/-- Concrete pass-through filter. -/
def identityFilter : Filter Unit :=
  { update := fun s x => (s, x) }

/-- Concrete rate limiter that passes the desired value through. -/
def passThroughRateLimiter : RateLimitingFilter Unit :=
  { update := fun s d _ => (s, d) }

/-- Concrete rate limiter returning `min(desired, measurement + 0.1)`
(spec scenario S7). -/
def minStepRateLimiter : RateLimitingFilter Unit :=
  { update := fun s d m => (s, min d (m + 1 / 10)) }

/-- Concrete PID whose output is the constant `c`. -/
def constPID (c : ℚ) : PIDController Unit :=
  { update := fun s _ _ => (s, c) }

/-- Concrete motor driver whose state is the last command written. -/
def lastCommandDriver : MotorDriver ℤ :=
  { set_motor_control := fun _ v => v }

/-- A freshly constructed system: trivial collaborator states, driver state
`0`, and a controller fresh from the constructor. -/
def freshSystem (deadband_threshold minimum_output : ℤ) :
    SystemState Unit Unit Unit Unit Unit ℤ :=
  { encoder := ()
    input_filter := ()
    output_filter := ()
    rate_limiting_filter := ()
    pid := ()
    motor_driver := 0
    controller := VelocityController.construct deadband_threshold minimum_output }

theorem truncToInt_zero : truncToInt 0 = 0 := by
  simp [truncToInt]

theorem truncToInt_intCast (n : ℤ) : truncToInt (n : ℚ) = n := by
  unfold truncToInt
  split <;> simp

theorem truncToInt_nonneg {q : ℚ} (h : 0 ≤ q) : 0 ≤ truncToInt q := by
  unfold truncToInt
  rw [if_pos h]
  exact Int.floor_nonneg.mpr h

theorem truncToInt_nonpos {q : ℚ} (h : q ≤ 0) : truncToInt q ≤ 0 := by
  unfold truncToInt
  by_cases h0 : 0 ≤ q
  · have hq : q = 0 := le_antisymm h h0
    simp [hq]
  · rw [if_neg h0]
    exact Int.ceil_le.mpr (by exact_mod_cast h)

theorem abs_truncToInt (q : ℚ) : |truncToInt q| = ⌊|q|⌋ := by
  unfold truncToInt
  by_cases h0 : 0 ≤ q
  · rw [if_pos h0, abs_of_nonneg (Int.floor_nonneg.mpr h0), abs_of_nonneg h0]
  · have hq : q < 0 := lt_of_not_ge h0
    have hc : ⌈q⌉ ≤ 0 := Int.ceil_le.mpr (by exact_mod_cast hq.le)
    rw [if_neg h0, abs_of_nonpos hc, abs_of_neg hq, Int.floor_neg]

theorem le_abs_truncToInt {q : ℚ} {m : ℤ} (h : (m : ℚ) ≤ |q|) :
    m ≤ |truncToInt q| := by
  rw [abs_truncToInt]
  exact Int.le_floor.mpr h

/-- Core of claim C4 over the command computation: a nonzero command has
magnitude at least `minimum_output`. -/
theorem motorControlValue_min_output (db mo PWM : ℤ) (u : ℚ) (hP : 1 ≤ PWM)
    (h : motorControlValue db mo PWM u ≠ 0) :
    mo ≤ |motorControlValue db mo PWM u| := by
  unfold motorControlValue conditionOutput at h ⊢
  split_ifs at h ⊢ with h1 h2
  · simp [truncToInt_zero] at h
  · have hmo : (0 : ℚ) < (mo : ℚ) := lt_of_le_of_lt (abs_nonneg u) h2
    have hmo' : 1 ≤ mo := by exact_mod_cast hmo
    rcases lt_trichotomy u 0 with hu | hu | hu
    · have hval : (mo : ℚ) * (u / |u|) * (PWM : ℚ) = ((-(mo * PWM) : ℤ) : ℚ) := by
        rw [abs_of_neg hu, div_neg, div_self hu.ne]
        push_cast; ring
      rw [hval, truncToInt_intCast] at h ⊢
      rw [abs_neg, abs_of_nonneg (mul_nonneg (by omega) (by omega))]
      nlinarith
    · rw [hu] at h
      simp [truncToInt_zero] at h
    · have hval : (mo : ℚ) * (u / |u|) * (PWM : ℚ) = ((mo * PWM : ℤ) : ℚ) := by
        rw [abs_of_pos hu, div_self hu.ne']
        push_cast; ring
      rw [hval, truncToInt_intCast] at h ⊢
      rw [abs_of_nonneg (mul_nonneg (by omega) (by omega))]
      nlinarith
  · rcases le_or_lt mo 0 with hmo | hmo
    · exact le_trans hmo (abs_nonneg _)
    · apply le_abs_truncToInt
      have h2' : (mo : ℚ) ≤ |u| := le_of_not_lt h2
      have hP' : (1 : ℚ) ≤ (PWM : ℚ) := by exact_mod_cast hP
      calc (mo : ℚ) ≤ |u| := h2'
        _ ≤ |u| * (PWM : ℚ) := le_mul_of_one_le_right (abs_nonneg u) hP'
        _ = |u * (PWM : ℚ)| := by
            rw [abs_mul, abs_of_nonneg (by linarith : (0 : ℚ) ≤ (PWM : ℚ))]

/-- Core of claim C5 over the command computation: a nonzero command has the
sign of the output-filtered PID output `u`. -/
theorem motorControlValue_sign (db mo PWM : ℤ) (u : ℚ) (hP : 1 ≤ PWM)
    (h : motorControlValue db mo PWM u ≠ 0) :
    (0 < motorControlValue db mo PWM u ↔ 0 < u) ∧
    (motorControlValue db mo PWM u < 0 ↔ u < 0) := by
  unfold motorControlValue conditionOutput at h ⊢
  split_ifs at h ⊢ with h1 h2
  · simp [truncToInt_zero] at h
  · have hmo : (0 : ℚ) < (mo : ℚ) := lt_of_le_of_lt (abs_nonneg u) h2
    have hmo' : 1 ≤ mo := by exact_mod_cast hmo
    rcases lt_trichotomy u 0 with hu | hu | hu
    · have hval : (mo : ℚ) * (u / |u|) * (PWM : ℚ) = ((-(mo * PWM) : ℤ) : ℚ) := by
        rw [abs_of_neg hu, div_neg, div_self hu.ne]
        push_cast; ring
      rw [hval, truncToInt_intCast] at h ⊢
      constructor
      · constructor
        · intro hlt; nlinarith
        · intro hlt; exact absurd hlt (asymm hu)
      · constructor
        · intro _; exact hu
        · intro _; nlinarith
    · rw [hu] at h
      simp [truncToInt_zero] at h
    · have hval : (mo : ℚ) * (u / |u|) * (PWM : ℚ) = ((mo * PWM : ℤ) : ℚ) := by
        rw [abs_of_pos hu, div_self hu.ne']
        push_cast; ring
      rw [hval, truncToInt_intCast] at h ⊢
      constructor
      · constructor
        · intro _; exact hu
        · intro _; nlinarith
      · constructor
        · intro hlt; nlinarith
        · intro hlt; exact absurd hlt (asymm hu)
  · rcases lt_trichotomy u 0 with hu | hu | hu
    · have hP0 : (0 : ℤ) < PWM := by omega
      have hP' : (0 : ℚ) < (PWM : ℚ) := by exact_mod_cast hP0
      have hup : u * (PWM : ℚ) ≤ 0 := by nlinarith
      have hle : truncToInt (u * (PWM : ℚ)) ≤ 0 := truncToInt_nonpos hup
      constructor
      · constructor
        · intro hlt; exact absurd hlt (by omega)
        · intro hlt; exact absurd hlt (asymm hu)
      · constructor
        · intro _; exact hu
        · intro _; omega
    · rw [hu] at h
      simp [truncToInt_zero] at h
    · have hP0 : (0 : ℤ) < PWM := by omega
      have hP' : (0 : ℚ) < (PWM : ℚ) := by exact_mod_cast hP0
      have hup : 0 ≤ u * (PWM : ℚ) := by nlinarith
      have hle : 0 ≤ truncToInt (u * (PWM : ℚ)) := truncToInt_nonneg hup
      constructor
      · constructor
        · intro _; exact hu
        · intro _; omega
      · constructor
        · intro hlt; exact absurd hlt (by omega)
        · intro hlt; exact absurd hlt (asymm hu)

/-- Claim C1 (refuted on the code): the deadband decision is not taken on the
scaled command.  With `deadband_threshold = 100`, `PWM_MAX = 4096` and
output-filtered PID output `u = 1/2` (spec scenario S1), line 73 compares the
unscaled `|u| = 1/2` against `100`, zeroes the output, and writes command `0`,
although `|u · PWM_MAX| = 2048 ≥ 100`, so the claimed equivalence
`cmd = 0 ↔ |u · PWM_MAX| < deadband_threshold` fails. -/
theorem deadband_compares_unscaled_output :
    (run_step (constEncoder 0) identityFilter identityFilter
        passThroughRateLimiter (constPID (1 / 2)) 4096
        (VelocityController.construct 100 300) () () () () () 0).u = 1 / 2 ∧
    (run_step (constEncoder 0) identityFilter identityFilter
        passThroughRateLimiter (constPID (1 / 2)) 4096
        (VelocityController.construct 100 300) () () () () ()
        0).motor_control_value = 0 ∧
    ¬ |(1 / 2 : ℚ) * 4096| < 100 := by
  refine ⟨rfl, ?_, ?_⟩
  · norm_num [run_step, constEncoder, identityFilter, passThroughRateLimiter,
      constPID, VelocityController.construct, motorControlValue,
      conditionOutput, truncToInt, abs]
  · rw [abs_of_nonneg (by norm_num : (0 : ℚ) ≤ 1 / 2 * 4096)]
    norm_num

/-- Claim C2 (refuted on the code): there is no saturation clamp.  With the
valid configuration `deadband_threshold = 0`, `minimum_output = 0`,
`PWM_MAX = 4096` and output-filtered PID output `u = 3/2` (spec scenario S5 is
the `-3/2` analogue), `set_target` writes the command `6144`, violating
`|cmd| ≤ PWM_MAX = 4096`. -/
theorem command_exceeds_pwm_max_without_clamp :
    (run_step (constEncoder 0) identityFilter identityFilter
        passThroughRateLimiter (constPID (3 / 2)) 4096
        (VelocityController.construct 0 0) () () () () ()
        0).motor_control_value = 6144 ∧
    ¬ |(6144 : ℤ)| ≤ 4096 := by
  constructor
  · norm_num [run_step, constEncoder, identityFilter, passThroughRateLimiter,
      constPID, VelocityController.construct, motorControlValue,
      conditionOutput, truncToInt, abs]
  · norm_num

/-- Claim C3 (refuted on the code): `current_setpoint_` is an `int64_t` field,
so the real value produced by the rate limiter is truncated when stored.  In
the spec's scenario S7 — rate limiter `min(desired, measurement + 0.1)`,
measurement `0`, `set_target(5.0)` — the rate limiter produces `1/10`, but
`get_setpoint()` returns `0`, not `1/10`. -/
theorem get_setpoint_truncates_rate_limited_value :
    (run_step (constEncoder 0) identityFilter identityFilter minStepRateLimiter
        (constPID 0) 4096 (VelocityController.construct 0 0) () () () () ()
        5).rate_limited_setpoint = 1 / 10 ∧
    (set_target (constEncoder 0) identityFilter identityFilter
        minStepRateLimiter (constPID 0) lastCommandDriver 4096
        (freshSystem 0 0) 5).controller.get_setpoint = 0 ∧
    (0 : ℚ) ≠ 1 / 10 := by
  refine ⟨?_, ?_, by norm_num⟩
  · norm_num [run_step, constEncoder, identityFilter, minStepRateLimiter,
      constPID]
  · norm_num [set_target, run_step, constEncoder, identityFilter,
      minStepRateLimiter, constPID, lastCommandDriver, freshSystem,
      VelocityController.construct, VelocityController.get_setpoint,
      truncToInt]

/-- Claim C6 (refuted on the code): when the output-filtered value `u` is `0`
and `deadband_threshold = 0` (a configuration the invariant
`0 ≤ deadband_threshold ≤ minimum_output ≤ PWM_MAX` allows), the deadband test
`abs(output) < deadband_threshold_` on line 73 is false, so with
`minimum_output = 300` the else-if branch on line 77 is taken and line 79
evaluates `output / abs(output)` with divisor `abs(0) = 0`: step 7 is not
skipped and a division by zero is evaluated (`0.0f/0.0f`, i.e. NaN, in the
C++ float semantics). -/
theorem minimum_floor_divides_by_zero_when_deadband_zero :
    (run_step (constEncoder 0) identityFilter identityFilter
        passThroughRateLimiter (constPID 0) 4096
        (VelocityController.construct 0 300) () () () () () 0).u = 0 ∧
    minimumFloorBranchTaken 0 300 0 = true ∧
    |(0 : ℚ)| = 0 := by
  refine ⟨rfl, ?_, abs_zero⟩
  norm_num [minimumFloorBranchTaken]

/-- Claim C7 (refuted on the code): the constructor performs no validation.
With `deadband_threshold = 5` and `minimum_output = 3` the configuration
invariant `0 ≤ deadband_threshold ≤ minimum_output ≤ PWM_MAX` is violated
(`5 > 3`), yet construction succeeds and produces a controller storing exactly
those values. -/
theorem construct_accepts_invalid_configuration :
    ¬ (0 ≤ (5 : ℤ) ∧ 5 ≤ 3 ∧ 3 ≤ 4096) ∧
    VelocityController.construct 5 3 =
      { deadband_threshold := 5, minimum_output := 3, current_setpoint := 0 } :=
  ⟨by norm_num, rfl⟩

/-- Claim C7 as amended: construction never fails and performs no validation —
for every pair of configuration integers (including pairs violating
`0 ≤ deadband_threshold ≤ minimum_output ≤ PWM_MAX`) a controller is produced
that stores them unchanged, with `current_setpoint_` initialised to `0`. -/
theorem construct_stores_configuration_unconditionally
    (deadband_threshold minimum_output : ℤ) :
    (VelocityController.construct deadband_threshold
        minimum_output).deadband_threshold = deadband_threshold ∧
    (VelocityController.construct deadband_threshold
        minimum_output).minimum_output = minimum_output ∧
    (VelocityController.construct deadband_threshold
        minimum_output).current_setpoint = 0 :=
  ⟨rfl, rfl, rfl⟩

/-- Claim C10: on a freshly constructed controller, before any `set_target`,
`get_setpoint()` returns zero: the constructor initialises
`current_setpoint_(0)`. -/
theorem get_setpoint_zero_before_first_set_target
    (deadband_threshold minimum_output : ℤ) :
    (VelocityController.construct deadband_threshold
        minimum_output).get_setpoint = 0 :=
  rfl

/-- Claim C4: in every invocation of `set_target`, if the command written to
the driver is nonzero then its magnitude is at least `minimum_output`
(quantified over arbitrary deterministic collaborators, collaborator states,
configuration and desired value; `PWM_RESOLUTION` is positive per the spec). -/
theorem nonzero_command_magnitude_at_least_minimum_output
    {ε ι ω ρ π : Type} (enc : Encoder ε) (ifil : Filter ι) (ofil : Filter ω)
    (rlim : RateLimitingFilter ρ) (pidc : PIDController π)
    (PWM_RESOLUTION : ℤ) (c : VelocityController)
    (e : ε) (fi : ι) (fo : ω) (r : ρ) (p : π) (desired_rotation_speed : ℚ)
    (hP : 1 ≤ PWM_RESOLUTION)
    (h : (run_step enc ifil ofil rlim pidc PWM_RESOLUTION c e fi fo r p
        desired_rotation_speed).motor_control_value ≠ 0) :
    c.minimum_output ≤ |(run_step enc ifil ofil rlim pidc PWM_RESOLUTION c e
        fi fo r p desired_rotation_speed).motor_control_value| :=
  motorControlValue_min_output c.deadband_threshold c.minimum_output
    PWM_RESOLUTION _ hP h

/-- Witness for claim C4: with `deadband_threshold = 0`,
`minimum_output = 300`, `PWM_RESOLUTION = 4096` and output-filtered PID output
`u = 1/20`, the command is `1228800 ≠ 0` and indeed `300 ≤ |1228800|`. -/
theorem nonzero_command_magnitude_at_least_minimum_output_witness :
    1 ≤ (4096 : ℤ) ∧
    (run_step (constEncoder 0) identityFilter identityFilter
        passThroughRateLimiter (constPID (1 / 20)) 4096
        (VelocityController.construct 0 300) () () () () ()
        0).motor_control_value ≠ 0 ∧
    (VelocityController.construct 0 300).minimum_output ≤
      |(run_step (constEncoder 0) identityFilter identityFilter
          passThroughRateLimiter (constPID (1 / 20)) 4096
          (VelocityController.construct 0 300) () () () () ()
          0).motor_control_value| :=
  ⟨by norm_num,
   by
    norm_num [run_step, constEncoder, identityFilter, passThroughRateLimiter,
      constPID, VelocityController.construct, motorControlValue,
      conditionOutput, truncToInt, abs],
   nonzero_command_magnitude_at_least_minimum_output (constEncoder 0)
    identityFilter identityFilter passThroughRateLimiter (constPID (1 / 20))
    4096 (VelocityController.construct 0 300) () () () () () 0 (by norm_num)
    (by
      norm_num [run_step, constEncoder, identityFilter, passThroughRateLimiter,
        constPID, VelocityController.construct, motorControlValue,
        conditionOutput, truncToInt, abs])⟩

/-- Claim C5: in every invocation of `set_target`, a nonzero command written to
the driver has the sign of `u`, the PID output after output filtering (the
value `u` of the step), for arbitrary deterministic collaborators and
configuration, with `PWM_RESOLUTION` positive per the spec. -/
theorem nonzero_command_sign_matches_filtered_pid_output
    {ε ι ω ρ π : Type} (enc : Encoder ε) (ifil : Filter ι) (ofil : Filter ω)
    (rlim : RateLimitingFilter ρ) (pidc : PIDController π)
    (PWM_RESOLUTION : ℤ) (c : VelocityController)
    (e : ε) (fi : ι) (fo : ω) (r : ρ) (p : π) (desired_rotation_speed : ℚ)
    (hP : 1 ≤ PWM_RESOLUTION)
    (h : (run_step enc ifil ofil rlim pidc PWM_RESOLUTION c e fi fo r p
        desired_rotation_speed).motor_control_value ≠ 0) :
    (0 < (run_step enc ifil ofil rlim pidc PWM_RESOLUTION c e fi fo r p
        desired_rotation_speed).motor_control_value ↔
      0 < (run_step enc ifil ofil rlim pidc PWM_RESOLUTION c e fi fo r p
        desired_rotation_speed).u) ∧
    ((run_step enc ifil ofil rlim pidc PWM_RESOLUTION c e fi fo r p
        desired_rotation_speed).motor_control_value < 0 ↔
      (run_step enc ifil ofil rlim pidc PWM_RESOLUTION c e fi fo r p
        desired_rotation_speed).u < 0) :=
  motorControlValue_sign c.deadband_threshold c.minimum_output
    PWM_RESOLUTION _ hP h

/-- Witness for claim C5: with `deadband_threshold = 0`,
`minimum_output = 300`, `PWM_RESOLUTION = 4096` and output-filtered PID output
`u = 1/20 > 0`, the command `1228800` is nonzero and positive like `u`. -/
theorem nonzero_command_sign_matches_filtered_pid_output_witness :
    1 ≤ (4096 : ℤ) ∧
    (run_step (constEncoder 0) identityFilter identityFilter
        passThroughRateLimiter (constPID (1 / 20)) 4096
        (VelocityController.construct 0 300) () () () () ()
        0).motor_control_value ≠ 0 ∧
    ((0 < (run_step (constEncoder 0) identityFilter identityFilter
        passThroughRateLimiter (constPID (1 / 20)) 4096
        (VelocityController.construct 0 300) () () () () ()
        0).motor_control_value ↔
      0 < (run_step (constEncoder 0) identityFilter identityFilter
        passThroughRateLimiter (constPID (1 / 20)) 4096
        (VelocityController.construct 0 300) () () () () () 0).u) ∧
    ((run_step (constEncoder 0) identityFilter identityFilter
        passThroughRateLimiter (constPID (1 / 20)) 4096
        (VelocityController.construct 0 300) () () () () ()
        0).motor_control_value < 0 ↔
      (run_step (constEncoder 0) identityFilter identityFilter
        passThroughRateLimiter (constPID (1 / 20)) 4096
        (VelocityController.construct 0 300) () () () () () 0).u < 0)) :=
  ⟨by norm_num,
   by
    norm_num [run_step, constEncoder, identityFilter, passThroughRateLimiter,
      constPID, VelocityController.construct, motorControlValue,
      conditionOutput, truncToInt, abs],
   nonzero_command_sign_matches_filtered_pid_output (constEncoder 0)
    identityFilter identityFilter passThroughRateLimiter (constPID (1 / 20))
    4096 (VelocityController.construct 0 300) () () () () () 0 (by norm_num)
    (by
      norm_num [run_step, constEncoder, identityFilter, passThroughRateLimiter,
        constPID, VelocityController.construct, motorControlValue,
        conditionOutput, truncToInt, abs])⟩

/-- Claim C8: the operations of every `set_target` invocation occur in the
spec's order — encoder update, then measurement read, input filter, rate limit
(storing `current_setpoint`), PID, output filter, deadband, (conditional)
minimum floor, scale, driver write.  The event list of the step is a sublist
of the canonical order (so no operation happens out of order) and contains all
mandatory operations in that order; in particular `encoder.update()` precedes
the measurement read. -/
theorem set_target_operation_order
    {ε ι ω ρ π : Type} (enc : Encoder ε) (ifil : Filter ι) (ofil : Filter ω)
    (rlim : RateLimitingFilter ρ) (pidc : PIDController π)
    (c : VelocityController) (e : ε) (fi : ι) (fo : ω) (r : ρ) (p : π)
    (desired_rotation_speed : ℚ) :
    List.Sublist (set_target_events enc ifil ofil rlim pidc c e fi fo r p
        desired_rotation_speed) canonical_step_order ∧
    List.Sublist mandatory_step_events
      (set_target_events enc ifil ofil rlim pidc c e fi fo r p
        desired_rotation_speed) := by
  simp only [set_target_events, canonical_step_order, mandatory_step_events]
  split_ifs <;> exact ⟨by decide, by decide⟩

/-- Claim C9: two `set_target` invocations with identical desired value and
identical collaborator and controller state produce the identical integer
command (the collaborators are deterministic functions of their state). -/
theorem set_target_deterministic
    {ε ι ω ρ π : Type} (enc : Encoder ε) (ifil : Filter ι) (ofil : Filter ω)
    (rlim : RateLimitingFilter ρ) (pidc : PIDController π)
    (PWM_RESOLUTION : ℤ) (c₁ c₂ : VelocityController) (e₁ e₂ : ε)
    (fi₁ fi₂ : ι) (fo₁ fo₂ : ω) (r₁ r₂ : ρ) (p₁ p₂ : π) (d₁ d₂ : ℚ)
    (hc : c₁ = c₂) (he : e₁ = e₂) (hfi : fi₁ = fi₂) (hfo : fo₁ = fo₂)
    (hr : r₁ = r₂) (hp : p₁ = p₂) (hd : d₁ = d₂) :
    (run_step enc ifil ofil rlim pidc PWM_RESOLUTION c₁ e₁ fi₁ fo₁ r₁ p₁
        d₁).motor_control_value =
    (run_step enc ifil ofil rlim pidc PWM_RESOLUTION c₂ e₂ fi₂ fo₂ r₂ p₂
        d₂).motor_control_value := by
  subst hc he hfi hfo hr hp hd
  rfl

/-- Witness for claim C9: a concrete repeated invocation yields the same
command. -/
theorem set_target_deterministic_witness :
    (run_step (constEncoder 0) identityFilter identityFilter
        passThroughRateLimiter (constPID 1) 4096
        (VelocityController.construct 0 0) () () () () ()
        1).motor_control_value =
    (run_step (constEncoder 0) identityFilter identityFilter
        passThroughRateLimiter (constPID 1) 4096
        (VelocityController.construct 0 0) () () () () ()
        1).motor_control_value :=
  set_target_deterministic (constEncoder 0) identityFilter identityFilter
    passThroughRateLimiter (constPID 1) 4096
    (VelocityController.construct 0 0) (VelocityController.construct 0 0)
    () () () () () () () () () () 1 1 rfl rfl rfl rfl rfl rfl rfl

end roboost.motor_control
